import Mathlib

/-!
Verification development for the snapshot lifecycle manager (`snapshotter.go`)
of a Raft-based replicated state-machine runtime.

The snapshotter orchestrates save, load, stream, commit, compact, shrink and
orphan-directory reconciliation. Its external collaborators (the log database,
the snapshot directory environment `server.SSEnv`, the framed snapshot
reader/writer and the chunk writer) are consumed interfaces; their responses
are modelled either as explicit inputs or as definitions derived from the
specification (each such definition carries a doc comment starting with
`Modelled from the spec:`). Every operation of the snapshotter is embedded as
a pure function returning an `Outcome` together with the ordered trace of the
externally visible effects (`Ev`) it attempted.
-/

set_option autoImplicit false

namespace Snap

/-- Semantic error kinds surfaced by the snapshotter: `noSnapshot` is
`ErrNoSnapshot`, `outOfDate` is the snapshot-out-of-date error, and `io n`
stands for an arbitrary distinct I/O or log-database error propagated
verbatim. -/
inductive Err where
  | noSnapshot
  | outOfDate
  | io : Nat → Err
deriving DecidableEq

instance {ε α : Type} [DecidableEq ε] [DecidableEq α] :
    DecidableEq (Except ε α)
  | .ok a, .ok b =>
    if h : a = b then .isTrue (by rw [h])
    else .isFalse (by intro hh; cases hh; exact h rfl)
  | .ok _, .error _ => .isFalse (by intro h; cases h)
  | .error _, .ok _ => .isFalse (by intro h; cases h)
  | .error e, .error f =>
    if h : e = f then .isTrue (by rw [h])
    else .isFalse (by intro hh; cases hh; exact h rfl)

/-- Result of an operation: normal return value, a returned Go `error`, or a
process-terminating `plog.Panicf`/`panic` diagnostic (`fatal`). -/
inductive Outcome (α : Type) where
  | ok : α → Outcome α
  | err : Err → Outcome α
  | fatal : String → Outcome α
deriving DecidableEq

/-- Externally visible effects attempted by the snapshotter, in program
order. -/
inductive Ev where
  | createTempDir
  | newWriter
  | saveSnapshot
  | prepareFiles
  | closeWriter
  | openReader
  | getHeader
  | closeReader
  | loadSessions
  | recover
  | validatePayload
  | closeDecompressor
  | streamSS
  | closeChunkWriter
  | sinkStop
  | saveMeta
  | finalizeDir
  | logdbSave
  | removeFlag (index : Nat)
  | removeFinalDir (index : Nat)
  | logdbDelete (index : Nat)
  | shrinkFile (index : Nat)
  | replaceFile (index : Nat)
  | removeAll (name : String)
  | syncDir
deriving DecidableEq

/-- The snapshot metadata record (`pb.Snapshot`), reduced to the fields the
snapshotter reads or writes. -/
structure Snapshot where
  clusterId : Nat := 0
  nodeId : Nat := 0
  index : Nat := 0
  term : Nat := 0
  onDiskIndex : Nat := 0
  dummy : Bool := false
  checksum : Nat := 0
  fileSize : Nat := 0
  files : List Nat := []
deriving DecidableEq

/-- Snapshot request kinds of `rsm.SSRequest`. -/
inductive SSRequestType where
  | periodic
  | userRequested
  | exported
  | streaming
deriving DecidableEq

/-- A snapshot request: its kind and, for exported snapshots, the
caller-supplied target path. -/
structure SSRequest where
  typ : SSRequestType := .periodic
  path : String := ""
deriving DecidableEq

/-- `rsm.SSRequest.IsExportedSnapshot`. -/
def IsExportedSnapshot (r : SSRequest) : Bool :=
  r.typ == .exported

/-- The snapshot metadata handed to save/stream (`rsm.SSMeta`), reduced to
the fields the snapshotter reads. `ct` is the compression type tag. -/
structure SSMeta where
  index : Nat := 0
  term : Nat := 0
  onDiskIndex : Nat := 0
  ct : Nat := 0
  req : SSRequest := {}
deriving DecidableEq

/-- The snapshot file header as far as load consumes it (`pb.SnapshotHeader`):
the format version and the compression type tag. -/
structure Header where
  version : Nat := 0
  ct : Nat := 0
deriving DecidableEq

/-- Number of snapshots kept by compaction (`snapshotsToKeep`). -/
def snapshotsToKeep : Nat := 3

/-- Fixed snapshot header size in bytes (`rsm.SnapshotHeaderSize`). -/
def SnapshotHeaderSize : Nat := 1024

/-- The compression type tag for no compression (`pb.NoCompression`). -/
def NoCompression : Nat := 0

/-- The compression type tag for snappy (`pb.Snappy`). -/
def Snappy : Nat := 1

/-- `compressionType`: maps the protobuf compression tag to the dio one and
terminates the process on any other tag. The returned value is the dio tag. -/
def compressionType (ct : Nat) : Outcome Nat :=
  if ct == NoCompression then .ok 0
  else if ct == Snappy then .ok 1
  else .fatal "unknown compression type"

/-- Modelled from the spec: closing the compressing chunk writer
(`dio.Compressor.Close` over `rsm.ChunkWriter`, neither of which is in the
source tree). Per the spec the chunk writer's `stop()` on error is mandatory,
so a close that fails calls `sink.Stop()` before the error propagates. -/
def chunkWriterClose (closeRes : Except Err Unit) : Except Err Unit × List Ev :=
  match closeRes with
  | .ok _ => (.ok (), [.closeChunkWriter])
  | .error e => (.error e, [.closeChunkWriter, .sinkStop])

/-- `snapshotter.Stream`: resolve the compression type, stream the snapshot
through the compressing chunk writer; on a streaming error stop the sink and
propagate, otherwise close the chunk writer. `streamRes` and `closeRes` are
the responses of the state machine and of the chunk-writer close. -/
def Stream (ct : Nat) (streamRes : Except Err Unit)
    (closeRes : Except Err Unit) : Outcome Unit × List Ev :=
  match compressionType ct with
  | .fatal m => (.fatal m, [])
  | _ =>
    match streamRes with
    | .error e => (.err e, [.streamSS, .sinkStop])
    | .ok _ =>
      match chunkWriterClose closeRes with
      | (.error e, t) => (.err e, .streamSS :: t)
      | (_, t) => (.ok (), .streamSS :: t)

/-- C7: whenever stream propagates an error to its caller, `sink.Stop()` is
among the effects it performed before returning. -/
theorem stream_error_stops_sink (ct : Nat) (streamRes closeRes : Except Err Unit)
    (e : Err) (h : (Stream ct streamRes closeRes).1 = .err e) :
    Ev.sinkStop ∈ (Stream ct streamRes closeRes).2 := by
  unfold Stream at h ⊢
  cases hct : compressionType ct with
  | ok v =>
    simp only [hct] at h ⊢
    cases streamRes with
    | error e2 => simp
    | ok _ =>
      cases closeRes with
      | ok _ => simp [chunkWriterClose] at h
      | error e2 => simp [chunkWriterClose]
  | err e2 =>
    simp only [hct] at h ⊢
    cases streamRes with
    | error e2 => simp
    | ok _ =>
      cases closeRes with
      | ok _ => simp [chunkWriterClose] at h
      | error e2 => simp [chunkWriterClose]
  | fatal m => simp [hct] at h

/-- Witness for C7 at a concrete input: a failing state-machine stream at
compression tag 0 propagates the error and the trace contains the sink stop. -/
theorem stream_error_stops_sink_witness :
    (Stream 0 (.error (.io 7)) (.ok ())).1 = .err (.io 7) ∧
      Ev.sinkStop ∈ (Stream 0 (.error (.io 7)) (.ok ())).2 :=
  ⟨by decide, stream_error_stops_sink 0 (.error (.io 7)) (.ok ()) (.io 7) (by decide)⟩

/-- Modelled from the spec: the snapshot reader's payload-checksum validation
(`rsm.SnapshotReader.ValidatePayload`, not in the source tree). The spec has
load call `validate_payload(header)` and fail when the checksum mismatches;
the reader terminates the run with an integrity diagnostic rather than
returning an error value (the call site in `Load` ignores any return value).
`payloadOk` is whether the rolling payload checksum equals the one recorded
in the header. -/
def ValidatePayload (payloadOk : Bool) : Outcome Unit :=
  if payloadOk then .ok () else .fatal "snapshot payload checksum mismatch"

/-- The external responses consumed by one run of `snapshotter.Load`: opening
the reader, reading the header, loading sessions, recovering the state
machine, whether the payload checksum validates, and closing the
decompressor. -/
structure LoadPrims where
  openRes : Except Err Unit := .ok ()
  headerRes : Except Err Header := .ok {}
  sessionsRes : Except Err Unit := .ok ()
  recoverRes : Except Err Unit := .ok ()
  payloadOk : Bool := true
  closeRes : Except Err Unit := .ok ()

/-- `snapshotter.Load`: open the reader, read the header, pick the
decompressor from the header's compression tag, load sessions, recover the
state machine, validate the payload checksum, and close the decompressor
(deferred close: a close error is surfaced only when no earlier error is
pending). -/
def Load (p : LoadPrims) : Outcome Unit × List Ev :=
  match p.openRes with
  | .error e => (.err e, [.openReader])
  | .ok _ =>
    match p.headerRes with
    | .error e => (.err e, [.openReader, .getHeader, .closeReader])
    | .ok h =>
      match compressionType h.ct with
      | .fatal m => (.fatal m, [.openReader, .getHeader])
      | _ =>
        match p.sessionsRes with
        | .error e =>
            (.err e, [.openReader, .getHeader, .loadSessions, .closeDecompressor])
        | .ok _ =>
          match p.recoverRes with
          | .error e =>
              (.err e,
                [.openReader, .getHeader, .loadSessions, .recover,
                  .closeDecompressor])
          | .ok _ =>
            match ValidatePayload p.payloadOk with
            | .fatal m =>
                (.fatal m,
                  [.openReader, .getHeader, .loadSessions, .recover,
                    .validatePayload])
            | _ =>
              match p.closeRes with
              | .error e =>
                  (.err e,
                    [.openReader, .getHeader, .loadSessions, .recover,
                      .validatePayload, .closeDecompressor])
              | .ok _ =>
                  (.ok (),
                    [.openReader, .getHeader, .loadSessions, .recover,
                      .validatePayload, .closeDecompressor])

/-- C1: when the pipeline reaches the state machine's recover step and recover
succeeds, the payload checksum is validated directly after the recover step,
a mismatching checksum makes load terminate unsuccessfully, and load can only
return success when the checksum matched. -/
theorem load_validates_checksum_after_recover (p : LoadPrims) (h : Header)
    (hopen : p.openRes = .ok ()) (hhdr : p.headerRes = .ok h)
    (hct : h.ct = NoCompression ∨ h.ct = Snappy)
    (hsess : p.sessionsRes = .ok ()) (hrec : p.recoverRes = .ok ()) :
    (∃ rest, (Load p).2 =
        [Ev.openReader, Ev.getHeader, Ev.loadSessions, Ev.recover,
          Ev.validatePayload] ++ rest) ∧
      (p.payloadOk = false →
        (Load p).1 = .fatal "snapshot payload checksum mismatch") ∧
      ((Load p).1 = .ok () → p.payloadOk = true) := by
  have hct2 : compressionType h.ct = .ok 0 ∨ compressionType h.ct = .ok 1 := by
    cases hct with
    | inl h0 => exact Or.inl (by simp [compressionType, h0, NoCompression])
    | inr h1 => exact Or.inr (by simp [compressionType, h1, NoCompression, Snappy])
  cases hp : p.payloadOk with
  | false =>
    have : Load p =
        (.fatal "snapshot payload checksum mismatch",
          [Ev.openReader, Ev.getHeader, Ev.loadSessions, Ev.recover,
            Ev.validatePayload]) := by
      unfold Load
      rcases hct2 with hc | hc <;>
        simp [hopen, hhdr, hsess, hrec, hc, ValidatePayload, hp]
    refine ⟨⟨[], by simp [this]⟩, fun _ => by simp [this], fun hok => ?_⟩
    rw [this] at hok
    simp at hok
  | true =>
    have : (Load p).2 =
        [Ev.openReader, Ev.getHeader, Ev.loadSessions, Ev.recover,
          Ev.validatePayload, Ev.closeDecompressor] := by
      unfold Load
      rcases hct2 with hc | hc <;>
        cases hcl : p.closeRes <;>
          simp [hopen, hhdr, hsess, hrec, hc, ValidatePayload, hp, hcl]
    refine ⟨⟨[Ev.closeDecompressor], by simp [this]⟩, ?_, ?_⟩
    · intro hfalse
      simp [hp] at hfalse
    · intro _
      rfl

/-- Witness for C1 at a concrete input: with all steps succeeding but a
mismatching payload checksum, validation happens right after recover and load
does not return success. -/
theorem load_validates_checksum_after_recover_witness :
    ({ payloadOk := false : LoadPrims }).openRes = .ok () ∧
      ({ payloadOk := false : LoadPrims }).headerRes = .ok {} ∧
      (({} : Header).ct = NoCompression ∨ ({} : Header).ct = Snappy) ∧
      ((∃ rest, (Load { payloadOk := false }).2 =
          [Ev.openReader, Ev.getHeader, Ev.loadSessions, Ev.recover,
            Ev.validatePayload] ++ rest) ∧
        (({ payloadOk := false : LoadPrims }).payloadOk = false →
          (Load { payloadOk := false }).1 =
            .fatal "snapshot payload checksum mismatch") ∧
        ((Load { payloadOk := false }).1 = .ok () →
          ({ payloadOk := false : LoadPrims }).payloadOk = true)) :=
  ⟨rfl, rfl, Or.inl rfl,
    load_validates_checksum_after_recover { payloadOk := false } {} rfl rfl
      (Or.inl rfl) rfl rfl⟩

/-- `snapshotter.getCustomSSEnv`: an exported snapshot request with an empty
target path terminates the process; otherwise an env rooted at the custom
path (exported) or at the replica's snapshot root is acquired. The env itself
is abstracted away; only the acquisition outcome matters here. -/
def getCustomSSEnv (req : SSRequest) : Outcome Unit :=
  if IsExportedSnapshot req then
    if req.path.length == 0 then .fatal "Path is empty when exporting snapshot"
    else .ok ()
  else .ok ()

/-- The external responses consumed by one run of `snapshotter.Save`:
creating the temp dir, opening the snapshot writer, the state machine's
`SaveSnapshot` (returning the dummy flag), `PrepareFiles` (returning the
staged auxiliary file ids), closing the writer, and the payload checksum and
byte count reported by the writer. -/
structure SavePrims where
  createTempRes : Except Err Unit := .ok ()
  newWriterRes : Except Err Unit := .ok ()
  saveSnapshotRes : Except Err Bool := .ok false
  prepareFilesRes : Except Err (List Nat) := .ok []
  closeRes : Except Err Unit := .ok ()
  payloadChecksum : Nat := 0
  payloadBytes : Nat := 0

/-- `snapshotter.Save`: acquire the env (panics for an exported request with
an empty path), create the temp dir, resolve the compression type, open the
writer, run the state machine's save, stage auxiliary files, and close the
writer (deferred close: it also runs on the error exits after the writer was
opened, and its error is surfaced only when no earlier error is pending);
on success the populated `pb.Snapshot` record is returned with the payload
checksum and `payload size + header size`. -/
def Save (clusterId : Nat) (meta : SSMeta) (p : SavePrims) :
    Outcome Snapshot × List Ev :=
  match getCustomSSEnv meta.req with
  | .fatal m => (.fatal m, [])
  | _ =>
    match p.createTempRes with
    | .error e => (.err e, [.createTempDir])
    | .ok _ =>
      match compressionType meta.ct with
      | .fatal m => (.fatal m, [.createTempDir])
      | _ =>
        match p.newWriterRes with
        | .error e => (.err e, [.createTempDir, .newWriter])
        | .ok _ =>
          match p.saveSnapshotRes with
          | .error e =>
              (.err e, [.createTempDir, .newWriter, .saveSnapshot, .closeWriter])
          | .ok dummy =>
            match p.prepareFilesRes with
            | .error e =>
                (.err e,
                  [.createTempDir, .newWriter, .saveSnapshot, .prepareFiles,
                    .closeWriter])
            | .ok fs =>
              match p.closeRes with
              | .error e =>
                  (.err e,
                    [.createTempDir, .newWriter, .saveSnapshot, .prepareFiles,
                      .closeWriter])
              | .ok _ =>
                  (.ok
                    { clusterId := clusterId
                      index := meta.index
                      term := meta.term
                      onDiskIndex := meta.onDiskIndex
                      dummy := dummy
                      checksum := p.payloadChecksum
                      fileSize := p.payloadBytes + SnapshotHeaderSize
                      files := fs },
                    [.createTempDir, .newWriter, .saveSnapshot, .prepareFiles,
                      .closeWriter])

/-- Modelled from the spec: `server.SSEnv.FinalizeSnapshot` (not in the
source tree) writes the flag file into the temp dir, fsyncs it, renames
temp to final and fsyncs the parent; it fails with `OutOfDate` if the final
dir already exists. `finals` is the set of indices whose final directory
exists; on success the attempted index's final directory is added.
`renameRes` is the filesystem response for the rename. -/
def FinalizeSnapshot (finals : List Nat) (index : Nat)
    (renameRes : Except Err Unit) : Except Err (List Nat) :=
  if finals.contains index then .error .outOfDate
  else
    match renameRes with
    | .error e => .error e
    | .ok _ => .ok (finals ++ [index])

/-- The external responses consumed by one run of `snapshotter.Commit`:
writing the flag-file metadata, the rename inside finalize, the log-database
record write, and the flag-file removal. -/
structure CommitPrims where
  saveMetaRes : Except Err Unit := .ok ()
  renameRes : Except Err Unit := .ok ()
  logdbRes : Except Err Unit := .ok ()
  removeFlagRes : Except Err Unit := .ok ()

/-- The result of a commit run: the outcome, the final directories afterward,
the log-database snapshot list afterward, and the trace of attempted steps. -/
structure CommitResult where
  res : Outcome Unit
  finals : List Nat
  db : List Snapshot
  trace : List Ev
deriving DecidableEq

/-- `snapshotter.Commit`: acquire the env (panics for an exported request
with an empty path), write the flag-file metadata, finalize (mapping the
env's out-of-date error to the snapshotter's), write the log-database record
unless the request is an exported snapshot, and remove the flag file. -/
def Commit (req : SSRequest) (ss : Snapshot) (finals : List Nat)
    (db : List Snapshot) (p : CommitPrims) : CommitResult :=
  match getCustomSSEnv req with
  | .fatal m => ⟨.fatal m, finals, db, []⟩
  | _ =>
    match p.saveMetaRes with
    | .error e => ⟨.err e, finals, db, [.saveMeta]⟩
    | .ok _ =>
      match FinalizeSnapshot finals ss.index p.renameRes with
      | .error e => ⟨.err e, finals, db, [.saveMeta, .finalizeDir]⟩
      | .ok finals2 =>
        if IsExportedSnapshot req then
          match p.removeFlagRes with
          | .error e =>
              ⟨.err e, finals2, db, [.saveMeta, .finalizeDir, .removeFlag ss.index]⟩
          | .ok _ =>
              ⟨.ok (), finals2, db, [.saveMeta, .finalizeDir, .removeFlag ss.index]⟩
        else
          match p.logdbRes with
          | .error e =>
              ⟨.err e, finals2, db, [.saveMeta, .finalizeDir, .logdbSave]⟩
          | .ok _ =>
            match p.removeFlagRes with
            | .error e =>
                ⟨.err e, finals2, db ++ [ss],
                  [.saveMeta, .finalizeDir, .logdbSave, .removeFlag ss.index]⟩
            | .ok _ =>
                ⟨.ok (), finals2, db ++ [ss],
                  [.saveMeta, .finalizeDir, .logdbSave, .removeFlag ss.index]⟩

/-- C2: on a successful commit the steps happen in the order flag-file
metadata write, finalize, log-database write (skipped when the request is an
exported snapshot), then flag-file removal; and whenever a step fails, the
error is returned with no later step attempted. -/
theorem commit_step_ordering (req : SSRequest) (ss : Snapshot)
    (finals : List Nat) (db : List Snapshot) (p : CommitPrims)
    (henv : getCustomSSEnv req = .ok ()) :
    (p.saveMetaRes = .ok () → finals.contains ss.index = false →
      p.renameRes = .ok () → p.logdbRes = .ok () → p.removeFlagRes = .ok () →
      Commit req ss finals db p =
        ⟨.ok (), finals ++ [ss.index],
          if IsExportedSnapshot req then db else db ++ [ss],
          [Ev.saveMeta, Ev.finalizeDir] ++
            (if IsExportedSnapshot req then [] else [Ev.logdbSave]) ++
            [Ev.removeFlag ss.index]⟩) ∧
    (∀ e, p.saveMetaRes = .error e →
      Commit req ss finals db p = ⟨.err e, finals, db, [Ev.saveMeta]⟩) ∧
    (∀ e, p.saveMetaRes = .ok () →
      FinalizeSnapshot finals ss.index p.renameRes = .error e →
      Commit req ss finals db p =
        ⟨.err e, finals, db, [Ev.saveMeta, Ev.finalizeDir]⟩) ∧
    (∀ e, p.saveMetaRes = .ok () → finals.contains ss.index = false →
      p.renameRes = .ok () → IsExportedSnapshot req = false →
      p.logdbRes = .error e →
      Commit req ss finals db p =
        ⟨.err e, finals ++ [ss.index], db,
          [Ev.saveMeta, Ev.finalizeDir, Ev.logdbSave]⟩) := by
  refine ⟨?_, ?_, ?_, ?_⟩
  · intro hm hc hr hl hf
    have hmem : ss.index ∉ finals := by simpa using hc
    unfold Commit
    cases hexp : IsExportedSnapshot req <;>
      simp [henv, hm, FinalizeSnapshot, hmem, hr, hl, hf, hexp]
  · intro e hm
    unfold Commit
    simp [henv, hm]
  · intro e hm hfin
    unfold Commit
    simp [henv, hm, hfin]
  · intro e hm hc hr hexp hl
    have hmem : ss.index ∉ finals := by simpa using hc
    unfold Commit
    simp [henv, hm, FinalizeSnapshot, hmem, hr, hexp, hl]

/-- Witness for C2 at a concrete input: a non-exported commit of index 5 with
all steps succeeding performs exactly metadata write, finalize, log-database
write and flag removal, and each single-step failure stops the run there. -/
theorem commit_step_ordering_witness :
    getCustomSSEnv {} = .ok () ∧
      (({} : CommitPrims).saveMetaRes = .ok () →
        List.contains [] ({ index := 5 : Snapshot }).index = false →
        ({} : CommitPrims).renameRes = .ok () →
        ({} : CommitPrims).logdbRes = .ok () →
        ({} : CommitPrims).removeFlagRes = .ok () →
        Commit {} { index := 5 } [] [] {} =
          ⟨.ok (), [] ++ [({ index := 5 : Snapshot }).index],
            if IsExportedSnapshot {} then [] else [] ++ [{ index := 5 }],
            [Ev.saveMeta, Ev.finalizeDir] ++
              (if IsExportedSnapshot {} then [] else [Ev.logdbSave]) ++
              [Ev.removeFlag ({ index := 5 : Snapshot }).index]⟩) ∧
      (∀ e, ({} : CommitPrims).saveMetaRes = .error e →
        Commit {} { index := 5 } [] [] {} =
          ⟨.err e, [], [], [Ev.saveMeta]⟩) ∧
      (∀ e, ({} : CommitPrims).saveMetaRes = .ok () →
        FinalizeSnapshot [] ({ index := 5 : Snapshot }).index
            ({} : CommitPrims).renameRes = .error e →
        Commit {} { index := 5 } [] [] {} =
          ⟨.err e, [], [], [Ev.saveMeta, Ev.finalizeDir]⟩) ∧
      (∀ e, ({} : CommitPrims).saveMetaRes = .ok () →
        List.contains [] ({ index := 5 : Snapshot }).index = false →
        ({} : CommitPrims).renameRes = .ok () →
        IsExportedSnapshot {} = false →
        ({} : CommitPrims).logdbRes = .error e →
        Commit {} { index := 5 } [] [] {} =
          ⟨.err e, [] ++ [({ index := 5 : Snapshot }).index], [],
            [Ev.saveMeta, Ev.finalizeDir, Ev.logdbSave]⟩) :=
  ⟨rfl, commit_step_ordering {} { index := 5 } [] [] {} rfl⟩

/-- C3 counterexample: with index 30 already committed (its final directory
exists and it is in the log database), committing index 25 — which is less
than or equal to the committed final index 30 — succeeds rather than
returning the OutOfDate error, because only an existing final directory for
the attempted index itself triggers OutOfDate. Committed indices are
therefore not forced to be strictly increasing. -/
theorem commit_low_index_not_rejected :
    25 ≤ 30 ∧ (30 : Nat) ∈ [30] ∧
      (Commit {} { index := 25 } [30] [{ index := 30 }] {}).res = .ok () ∧
      ¬(Commit {} { index := 25 } [30] [{ index := 30 }] {}).res =
          .err .outOfDate := by
  decide

/-- C3 (amended): commit returns the OutOfDate error exactly when the final
directory for the attempted index already exists (in particular an attempt to
re-commit an already committed index is rejected, but a fresh smaller index
is not); on rejection the final directories and the log database are
unchanged — only the temp-dir writes of the first two steps occurred. Stated
under the assumptions that the metadata write and the rename do not fail of
their own and that the log-database write and flag removal do not themselves
produce an OutOfDate error. -/
theorem commit_out_of_date_iff_final_dir_exists (req : SSRequest)
    (ss : Snapshot) (finals : List Nat) (db : List Snapshot) (p : CommitPrims)
    (henv : getCustomSSEnv req = .ok ())
    (hm : p.saveMetaRes = .ok ()) (hr : p.renameRes = .ok ())
    (hl : p.logdbRes ≠ .error .outOfDate)
    (hf : p.removeFlagRes ≠ .error .outOfDate) :
    ((Commit req ss finals db p).res = .err .outOfDate ↔
        finals.contains ss.index = true) ∧
      (finals.contains ss.index = true →
        Commit req ss finals db p =
          ⟨.err .outOfDate, finals, db, [Ev.saveMeta, Ev.finalizeDir]⟩) := by
  cases hc : finals.contains ss.index with
  | true =>
    have hmem : ss.index ∈ finals := by simpa using hc
    have heq : Commit req ss finals db p =
        ⟨.err .outOfDate, finals, db, [Ev.saveMeta, Ev.finalizeDir]⟩ := by
      unfold Commit
      simp [henv, hm, FinalizeSnapshot, hmem]
    exact ⟨by simp [heq], fun _ => heq⟩
  | false =>
    have hmem : ss.index ∉ finals := by simpa using hc
    have hne : ¬(Commit req ss finals db p).res = .err .outOfDate := by
      unfold Commit
      cases hexp : IsExportedSnapshot req with
      | true =>
        cases hrf : p.removeFlagRes with
        | ok _ => simp [henv, hm, FinalizeSnapshot, hmem, hr, hexp, hrf]
        | error e =>
          have he : ¬e = .outOfDate := by
            intro h
            exact hf (h ▸ hrf)
          simp [henv, hm, FinalizeSnapshot, hmem, hr, hexp, hrf, he]
      | false =>
        cases hlg : p.logdbRes with
        | error e =>
          have he : ¬e = .outOfDate := by
            intro h
            exact hl (h ▸ hlg)
          simp [henv, hm, FinalizeSnapshot, hmem, hr, hexp, hlg, he]
        | ok _ =>
          cases hrf : p.removeFlagRes with
          | ok _ => simp [henv, hm, FinalizeSnapshot, hmem, hr, hexp, hlg, hrf]
          | error e =>
            have he : ¬e = .outOfDate := by
              intro h
              exact hf (h ▸ hrf)
            simp [henv, hm, FinalizeSnapshot, hmem, hr, hexp, hlg, hrf, he]
    exact ⟨⟨fun h => absurd h hne, fun h => by cases h⟩, fun h => by cases h⟩

/-- Witness for the amended C3 at a concrete input: re-committing index 30
while its final directory exists is rejected with OutOfDate and leaves the
final directories and the log database unchanged. -/
theorem commit_out_of_date_iff_final_dir_exists_witness :
    getCustomSSEnv {} = .ok () ∧
      ({} : CommitPrims).saveMetaRes = .ok () ∧
      ({} : CommitPrims).renameRes = .ok () ∧
      ¬({} : CommitPrims).logdbRes = .error .outOfDate ∧
      ¬({} : CommitPrims).removeFlagRes = .error .outOfDate ∧
      (((Commit {} { index := 30 } [30] [{ index := 30 }] {}).res =
            .err .outOfDate ↔
          List.contains [30] ({ index := 30 : Snapshot }).index = true) ∧
        (List.contains [30] ({ index := 30 : Snapshot }).index = true →
          Commit {} { index := 30 } [30] [{ index := 30 }] {} =
            ⟨.err .outOfDate, [30], [{ index := 30 }],
              [Ev.saveMeta, Ev.finalizeDir]⟩)) :=
  ⟨rfl, rfl, rfl, by decide, by decide,
    commit_out_of_date_iff_final_dir_exists {} { index := 30 } [30]
      [{ index := 30 }] {} rfl rfl rfl (by decide) (by decide)⟩

/-- C10: a save or commit whose request is an exported snapshot with an empty
target path terminates the process with a diagnostic (it does not return an
error), so a non-empty path is an unchecked precondition of the
exported-snapshot interface. -/
theorem exported_empty_path_panics (clusterId : Nat) (meta : SSMeta)
    (sp : SavePrims) (req : SSRequest) (ss : Snapshot) (finals : List Nat)
    (db : List Snapshot) (cp : CommitPrims)
    (hm1 : meta.req.typ = .exported) (hm2 : meta.req.path = "")
    (h1 : req.typ = .exported) (h2 : req.path = "") :
    (Save clusterId meta sp).1 = .fatal "Path is empty when exporting snapshot" ∧
      (Commit req ss finals db cp).res =
        .fatal "Path is empty when exporting snapshot" := by
  have henv : ∀ r : SSRequest, r.typ = .exported → r.path = "" →
      getCustomSSEnv r = .fatal "Path is empty when exporting snapshot" := by
    intro r hr hp
    simp [getCustomSSEnv, IsExportedSnapshot, hr, hp]
  constructor
  · unfold Save
    simp [henv meta.req hm1 hm2]
  · unfold Commit
    simp [henv req h1 h2]

/-- Witness for C10 at a concrete input: an exported request with empty path
makes both save and commit terminate with the diagnostic. -/
theorem exported_empty_path_panics_witness :
    ({ req := { typ := .exported } : SSMeta }).req.typ = .exported ∧
      ({ req := { typ := .exported } : SSMeta }).req.path = "" ∧
      ({ typ := .exported : SSRequest }).typ = .exported ∧
      ({ typ := .exported : SSRequest }).path = "" ∧
      ((Save 1 { req := { typ := .exported } } {}).1 =
          .fatal "Path is empty when exporting snapshot" ∧
        (Commit { typ := .exported } {} [] [] {}).res =
          .fatal "Path is empty when exporting snapshot") :=
  ⟨rfl, rfl, rfl, rfl,
    exported_empty_path_panics 1 { req := { typ := .exported } } {}
      { typ := .exported } {} [] [] {} rfl rfl rfl rfl⟩

/-- Modelled from the spec: the log database's
`list_snapshots(cluster, node, max_index)` (consumed interface, not in the
source tree) returns the ascending list of snapshot records with index at
most `max_index`. `db` is the replica's ascending snapshot list. -/
def ListSnapshots (db : List Snapshot) (maxIndex : Nat) : List Snapshot :=
  db.filter (fun ss => ss.index ≤ maxIndex)

/-- Modelled from the spec: the log database's
`delete_snapshot(cluster, node, index)` (consumed interface, not in the
source tree) removes the record with the given index from the replica's
snapshot list. -/
def DeleteSnapshot (db : List Snapshot) (index : Nat) : List Snapshot :=
  db.filter (fun ss => !(ss.index == index))

/-- `snapshotter.GetMostRecentSnapshot` applied to the log database's
response for `ListSnapshots(..., MaxUint64)`: propagate a log-database error,
return `ErrNoSnapshot` on an empty list, else the last element. -/
def GetMostRecentSnapshot (listRes : Except Err (List Snapshot)) :
    Except Err Snapshot :=
  match listRes with
  | .error e => .error e
  | .ok snaps =>
    match snaps.getLast? with
    | none => .error .noSnapshot
    | some ss => .ok ss

/-- The external responses consumed by one run of `snapshotter.Compact`: the
log-database record deletion and the final-directory removal, per index. -/
structure CompactPrims where
  delRes : Nat → Except Err Unit := fun _ => .ok ()
  rmRes : Nat → Except Err Unit := fun _ => .ok ()

/-- The loop of `snapshotter.Compact` over the selected records: for each,
delete the log-database record, then remove the final directory, stopping at
the first failure. Returns the outcome, the log database afterward and the
trace. -/
def compactLoop (p : CompactPrims) (db : List Snapshot) :
    List Snapshot → Outcome Unit × List Snapshot × List Ev
  | [] => (.ok (), db, [])
  | ss :: rest =>
    match p.delRes ss.index with
    | .error e => (.err e, db, [.logdbDelete ss.index])
    | .ok _ =>
      let db2 := DeleteSnapshot db ss.index
      match p.rmRes ss.index with
      | .error e =>
          (.err e, db2, [.logdbDelete ss.index, .removeFinalDir ss.index])
      | .ok _ =>
        let r := compactLoop p db2 rest
        (r.1, r.2.1, .logdbDelete ss.index :: .removeFinalDir ss.index :: r.2.2)

/-- `snapshotter.Compact`: list the log-database snapshots with index at most
`removeUpTo` (`listRes` is the log database's response); if at most
`snapshotsToKeep` are listed, do nothing; otherwise process all but the
newest `snapshotsToKeep` of them, deleting each record before removing its
final directory. -/
def Compact (p : CompactPrims) (db : List Snapshot)
    (listRes : Except Err (List Snapshot)) : Outcome Unit × List Snapshot × List Ev :=
  match listRes with
  | .error e => (.err e, db, [])
  | .ok snaps =>
    if snaps.length ≤ snapshotsToKeep then (.ok (), db, [])
    else compactLoop p db (snaps.take (snaps.length - snapshotsToKeep))

theorem compactLoop_keeps_unselected (p : CompactPrims) :
    ∀ (sel : List Snapshot) (db : List Snapshot) (ss : Snapshot),
      ss ∈ db → (∀ t ∈ sel, ¬t.index = ss.index) →
      ss ∈ (compactLoop p db sel).2.1 := by
  intro sel
  induction sel with
  | nil => intro db ss hdb _; exact hdb
  | cons hd tl ih =>
    intro db ss hdb hne
    have hhd : ¬hd.index = ss.index := hne hd (by simp)
    have hdb2 : ss ∈ DeleteSnapshot db hd.index := by
      simp [DeleteSnapshot, List.mem_filter, hdb]
      intro h
      exact hhd h.symm
    unfold compactLoop
    cases p.delRes hd.index with
    | error e => exact hdb
    | ok _ =>
      cases p.rmRes hd.index with
      | error e => exact hdb2
      | ok _ =>
        exact ih (DeleteSnapshot db hd.index) ss hdb2
          (fun t ht => hne t (by simp [ht]))

theorem compactLoop_all_ok (p : CompactPrims)
    (hdel : ∀ i, p.delRes i = .ok ()) (hrm : ∀ i, p.rmRes i = .ok ()) :
    ∀ (sel : List Snapshot) (db : List Snapshot),
      (compactLoop p db sel).1 = .ok () ∧
        (compactLoop p db sel).2.2 =
          sel.flatMap (fun ss => [Ev.logdbDelete ss.index, Ev.removeFinalDir ss.index]) ∧
        ∀ ss ∈ (compactLoop p db sel).2.1,
          ss ∈ db ∧ ∀ t ∈ sel, ¬ss.index = t.index := by
  intro sel
  induction sel with
  | nil => intro db; exact ⟨rfl, rfl, fun ss h => ⟨h, by simp⟩⟩
  | cons hd tl ih =>
    intro db
    have h1 := hdel hd.index
    have h2 := hrm hd.index
    unfold compactLoop
    rw [h1, h2]
    obtain ⟨ha, hb, hc⟩ := ih (DeleteSnapshot db hd.index)
    refine ⟨ha, by simp [hb], ?_⟩
    intro ss hss
    obtain ⟨hmem, hrest⟩ := hc ss hss
    have hmem2 : ss ∈ db ∧ ¬ss.index = hd.index := by
      have := List.mem_filter.mp hmem
      refine ⟨this.1, ?_⟩
      have := this.2
      simpa using this
    refine ⟨hmem2.1, ?_⟩
    intro t ht
    rcases List.mem_cons.mp ht with h | h
    · subst h
      exact hmem2.2
    · exact hrest t h

/-- C4: compact over the log-database snapshots with index at most `x`
(`snaps` is what the log database lists, `db` its full ascending record
list): if at most 3 are listed nothing at all is done; otherwise exactly the
oldest `count - 3` listed records are processed, for each the log-database
record deletion precedes the final-directory removal, every record that
survives is not among the selected ones, and the 3 most recent listed
snapshots remain in the log database. -/
theorem compact_retention (p : CompactPrims) (db : List Snapshot) (x : Nat)
    (snaps : List Snapshot) (hlist : snaps = ListSnapshots db x)
    (hmono : db.Pairwise (fun a b => a.index < b.index))
    (hdel : ∀ i, p.delRes i = .ok ()) (hrm : ∀ i, p.rmRes i = .ok ()) :
    (snaps.length ≤ snapshotsToKeep →
      Compact p db (.ok snaps) = (.ok (), db, [])) ∧
    (snapshotsToKeep < snaps.length →
      (Compact p db (.ok snaps)).1 = .ok () ∧
      (Compact p db (.ok snaps)).2.2 =
        (snaps.take (snaps.length - snapshotsToKeep)).flatMap
          (fun ss => [Ev.logdbDelete ss.index, Ev.removeFinalDir ss.index]) ∧
      (∀ ss ∈ (Compact p db (.ok snaps)).2.1,
        ∀ t ∈ snaps.take (snaps.length - snapshotsToKeep), ¬ss.index = t.index) ∧
      (∀ ss ∈ snaps.drop (snaps.length - snapshotsToKeep),
        ss ∈ (Compact p db (.ok snaps)).2.1)) := by
  constructor
  · intro hle
    simp [Compact, hle]
  · intro hgt
    have hnle : ¬snaps.length ≤ snapshotsToKeep := Nat.not_le.mpr hgt
    have hsel : Compact p db (.ok snaps) =
        compactLoop p db (snaps.take (snaps.length - snapshotsToKeep)) := by
      simp [Compact, hnle]
    obtain ⟨ha, hb, hc⟩ :=
      compactLoop_all_ok p hdel hrm (snaps.take (snaps.length - snapshotsToKeep)) db
    refine ⟨by rw [hsel]; exact ha, by rw [hsel]; exact hb, ?_, ?_⟩
    · intro ss hss t ht
      rw [hsel] at hss
      exact (hc ss hss).2 t ht
    · -- the last `snapshotsToKeep` listed snapshots survive
      have hsnaps : snaps.Pairwise (fun a b => a.index < b.index) := by
        rw [hlist]
        exact List.Pairwise.sublist (List.filter_sublist db) hmono
      have hsplit :
          snaps.take (snaps.length - snapshotsToKeep) ++
            snaps.drop (snaps.length - snapshotsToKeep) = snaps :=
        List.take_append_drop _ _
      have hcross :
          ∀ a ∈ snaps.take (snaps.length - snapshotsToKeep),
            ∀ b ∈ snaps.drop (snaps.length - snapshotsToKeep), a.index < b.index := by
        have := List.pairwise_append.mp (by rw [hsplit]; exact hsnaps)
        exact this.2.2
      intro ss hss
      rw [hsel]
      have hmemdb : ss ∈ db := by
        have hmemsnaps : ss ∈ snaps := List.mem_of_mem_drop hss
        rw [hlist] at hmemsnaps
        exact List.mem_of_mem_filter hmemsnaps
      exact compactLoop_keeps_unselected p _ db ss hmemdb
        (fun t ht => Nat.ne_of_lt (hcross t ht ss hss))

/-- Witness for C4 at a concrete input: five listed snapshots 10..50 with
`compact(50)`; the oldest two are deleted, record before directory, and
30, 40, 50 survive. -/
theorem compact_retention_witness :
    [({ index := 10 } : Snapshot), { index := 20 }, { index := 30 },
        { index := 40 }, { index := 50 }] =
      ListSnapshots
        [{ index := 10 }, { index := 20 }, { index := 30 }, { index := 40 },
          { index := 50 }] 50 ∧
    (snapshotsToKeep <
        ([({ index := 10 } : Snapshot), { index := 20 }, { index := 30 },
          { index := 40 }, { index := 50 }]).length →
      (Compact {}
          [{ index := 10 }, { index := 20 }, { index := 30 }, { index := 40 },
            { index := 50 }]
          (.ok
            [{ index := 10 }, { index := 20 }, { index := 30 }, { index := 40 },
              { index := 50 }])).1 = .ok () ∧
      (Compact {}
          [{ index := 10 }, { index := 20 }, { index := 30 }, { index := 40 },
            { index := 50 }]
          (.ok
            [{ index := 10 }, { index := 20 }, { index := 30 }, { index := 40 },
              { index := 50 }])).2.2 =
        (([({ index := 10 } : Snapshot), { index := 20 }, { index := 30 },
            { index := 40 }, { index := 50 }]).take
          (([({ index := 10 } : Snapshot), { index := 20 }, { index := 30 },
            { index := 40 }, { index := 50 }]).length - snapshotsToKeep)).flatMap
          (fun ss => [Ev.logdbDelete ss.index, Ev.removeFinalDir ss.index]) ∧
      (∀ ss ∈ (Compact {}
          [{ index := 10 }, { index := 20 }, { index := 30 }, { index := 40 },
            { index := 50 }]
          (.ok
            [{ index := 10 }, { index := 20 }, { index := 30 }, { index := 40 },
              { index := 50 }])).2.1,
        ∀ t ∈ ([({ index := 10 } : Snapshot), { index := 20 }, { index := 30 },
            { index := 40 }, { index := 50 }]).take
          (([({ index := 10 } : Snapshot), { index := 20 }, { index := 30 },
            { index := 40 }, { index := 50 }]).length - snapshotsToKeep),
          ¬ss.index = t.index) ∧
      (∀ ss ∈ ([({ index := 10 } : Snapshot), { index := 20 }, { index := 30 },
            { index := 40 }, { index := 50 }]).drop
          (([({ index := 10 } : Snapshot), { index := 20 }, { index := 30 },
            { index := 40 }, { index := 50 }]).length - snapshotsToKeep),
        ss ∈ (Compact {}
          [{ index := 10 }, { index := 20 }, { index := 30 }, { index := 40 },
            { index := 50 }]
          (.ok
            [{ index := 10 }, { index := 20 }, { index := 30 }, { index := 40 },
              { index := 50 }])).2.1)) :=
  ⟨rfl,
    (compact_retention {}
      [{ index := 10 }, { index := 20 }, { index := 30 }, { index := 40 },
        { index := 50 }] 50
      [{ index := 10 }, { index := 20 }, { index := 30 }, { index := 40 },
        { index := 50 }] rfl (by decide) (fun _ => rfl) (fun _ => rfl)).2⟩

/-- The external responses consumed by one run of `snapshotter.Shrink`: the
format-aware shrink of the payload file and the atomic replacement of the
original with the shrunk file, per index. -/
structure ShrinkPrims where
  shrinkRes : Nat → Except Err Unit := fun _ => .ok ()
  replaceRes : Nat → Except Err Unit := fun _ => .ok ()

/-- The loop of `snapshotter.Shrink` over the listed records: a record with
index above the shrink bound terminates the process; a dummy record is
skipped; otherwise the shrunk file is produced and then atomically replaces
the original, stopping at the first failure. -/
def shrinkLoop (p : ShrinkPrims) (shrinkTo : Nat) :
    List Snapshot → Outcome Unit × List Ev
  | [] => (.ok (), [])
  | ss :: rest =>
    if shrinkTo < ss.index then (.fatal "unexpected snapshot found", [])
    else if ss.dummy then shrinkLoop p shrinkTo rest
    else
      match p.shrinkRes ss.index with
      | .error e => (.err e, [.shrinkFile ss.index])
      | .ok _ =>
        match p.replaceRes ss.index with
        | .error e => (.err e, [.shrinkFile ss.index, .replaceFile ss.index])
        | .ok _ =>
          let r := shrinkLoop p shrinkTo rest
          (r.1, .shrinkFile ss.index :: .replaceFile ss.index :: r.2)

/-- `snapshotter.Shrink`: list the log-database snapshots with index at most
`shrinkTo` (`listRes` is the log database's response) and run the shrink
loop over them. -/
def Shrink (p : ShrinkPrims) (shrinkTo : Nat)
    (listRes : Except Err (List Snapshot)) : Outcome Unit × List Ev :=
  match listRes with
  | .error e => (.err e, [])
  | .ok snaps => shrinkLoop p shrinkTo snaps

/-- C8: when every listed snapshot respects the shrink bound (the
log-database contract) and the per-file operations succeed, shrink processes
exactly the non-dummy listed snapshots, each by first producing the shrunk
file and then replacing the original with it, and skips dummy snapshots
entirely. -/
theorem shrink_processes_nondummy (p : ShrinkPrims) (shrinkTo : Nat)
    (snaps : List Snapshot) (hle : ∀ ss ∈ snaps, ss.index ≤ shrinkTo)
    (hsh : ∀ i, p.shrinkRes i = .ok ()) (hrp : ∀ i, p.replaceRes i = .ok ()) :
    Shrink p shrinkTo (.ok snaps) =
      (.ok (),
        (snaps.filter (fun ss => !ss.dummy)).flatMap
          (fun ss => [Ev.shrinkFile ss.index, Ev.replaceFile ss.index])) := by
  show shrinkLoop p shrinkTo snaps = _
  induction snaps with
  | nil => rfl
  | cons hd tl ih =>
    have hhd : ¬shrinkTo < hd.index :=
      Nat.not_lt.mpr (hle hd (by simp))
    have htl : ∀ ss ∈ tl, ss.index ≤ shrinkTo := fun ss h => hle ss (by simp [h])
    unfold shrinkLoop
    cases hdum : hd.dummy with
    | true => simp [hhd, hdum, ih htl]
    | false => simp [hhd, hdum, hsh hd.index, hrp hd.index, ih htl]

/-- Witness for C8 at a concrete input: listed snapshots 10 (regular),
20 (dummy), 30 (regular) under bound 30; exactly 10 and 30 are shrunk then
replaced, 20 is skipped. -/
theorem shrink_processes_nondummy_witness :
    (∀ ss ∈ [({ index := 10 } : Snapshot), { index := 20, dummy := true },
        { index := 30 }], ss.index ≤ 30) ∧
      Shrink {} 30
          (.ok [{ index := 10 }, { index := 20, dummy := true }, { index := 30 }]) =
        (.ok (),
          (([({ index := 10 } : Snapshot), { index := 20, dummy := true },
              { index := 30 }]).filter (fun ss => !ss.dummy)).flatMap
            (fun ss => [Ev.shrinkFile ss.index, Ev.replaceFile ss.index])) :=
  ⟨by decide,
    shrink_processes_nondummy {} 30
      [{ index := 10 }, { index := 20, dummy := true }, { index := 30 }]
      (by decide) (fun _ => rfl) (fun _ => rfl)⟩

/-- Lowercase hexadecimal digit, the character class of the directory-name
regexes. -/
def isLowerHexDigit (c : Char) : Bool :=
  (('0' ≤ c) && (c ≤ '9')) || (('a' ≤ c) && (c ≤ 'f'))

/-- Modelled from the spec: `server.SnapshotDirNameRe` (not in the source
tree), the final snapshot directory name regex
`^snapshot-[0-9a-f]\x7b16\x7d$`. Used by `snapshotter.dirNameMatch`. -/
def dirNameMatch (s : String) : Bool :=
  s.toList.length == 25 &&
    s.toList.take 9 == "snapshot-".toList &&
    (s.toList.drop 9).all isLowerHexDigit

/-- Modelled from the spec: `server.GenSnapshotDirNameRe` (not in the source
tree), the temp snapshot directory name regex
`^generating-[0-9a-f]\x7b16\x7d-[0-9a-f]+$`. -/
def genDirMatch (s : String) : Bool :=
  s.toList.take 11 == "generating-".toList &&
    Nat.ble 29 s.toList.length &&
    ((s.toList.drop 11).take 16).all isLowerHexDigit &&
    ((s.toList.drop 27).take 1) == ['-'] &&
    (s.toList.drop 28).all isLowerHexDigit

/-- Modelled from the spec: `server.RecvSnapshotDirNameRe` (not in the source
tree), the inbound-stream directory name regex
`^receiving-[0-9a-f]\x7b16\x7d-[0-9a-f]+$`. -/
def recvDirMatch (s : String) : Bool :=
  s.toList.take 10 == "receiving-".toList &&
    Nat.ble 28 s.toList.length &&
    ((s.toList.drop 10).take 16).all isLowerHexDigit &&
    ((s.toList.drop 26).take 1) == ['-'] &&
    (s.toList.drop 27).all isLowerHexDigit

/-- `snapshotter.isZombieDir`: the name matches the generating or the
receiving directory regex. -/
def isZombieDir (dir : String) : Bool :=
  genDirMatch dir || recvDirMatch dir

/-- Modelled from the spec: `pb.IsEmptySnapshot` (not in the source tree):
an empty snapshot record is one capturing no Raft entry, index zero. -/
def IsEmptySnapshot (ss : Snapshot) : Bool :=
  ss.index == 0

/-- A directory entry of the replica's snapshot root as `ProcessOrphans`
observes it: its name, whether it is a directory, whether the snapshot flag
file is present in it (`fileutil.HasFlagFile`), and the flag file's content
(`fileutil.GetFlagFileContent`). -/
structure Entry where
  name : String := ""
  isDir : Bool := true
  hasFlag : Bool := false
  flagRes : Except Err Snapshot := .ok {}

/-- `snapshotter.isOrphanDir`: the name matches the final snapshot directory
regex and the flag file is still present. -/
def isOrphanDir (e : Entry) : Bool :=
  dirNameMatch e.name && e.hasFlag

/-- The external responses consumed by one run of
`snapshotter.ProcessOrphans`: the log database's `ListSnapshots` response
used by `GetMostRecentSnapshot`, the final-directory removal and flag-file
removal per index, the recursive removal per directory name, and the
directory sync. -/
structure OrphanPrims where
  mrRes : Except Err (List Snapshot) := .ok []
  removeFinalRes : Nat → Except Err Unit := fun _ => .ok ()
  removeFlagRes : Nat → Except Err Unit := fun _ => .ok ()
  removeAllRes : String → Except Err Unit := fun _ => .ok ()
  syncRes : Except Err Unit := .ok ()

/-- The body of the `ProcessOrphans` loop for one directory entry: an orphan
directory has its flag file read (an empty record terminates the process),
then is deleted iff the log database has no snapshot or its most recent
snapshot's index differs from the flag file's, and otherwise only loses its
flag file; a zombie directory is recursively removed and the parent synced;
anything else is left untouched. -/
def processEntry (prm : OrphanPrims) (e : Entry) : Outcome Unit × List Ev :=
  if e.isDir = false then (.ok (), [])
  else if isOrphanDir e then
    match e.flagRes with
    | .error er => (.err er, [])
    | .ok ss =>
      if IsEmptySnapshot ss then (.fatal "empty snapshot found", [])
      else
        match GetMostRecentSnapshot prm.mrRes with
        | .error .noSnapshot =>
          match prm.removeFinalRes ss.index with
          | .error er => (.err er, [.removeFinalDir ss.index])
          | .ok _ => (.ok (), [.removeFinalDir ss.index])
        | .error er => (.err er, [])
        | .ok mrss =>
          if mrss.index == ss.index then
            match prm.removeFlagRes ss.index with
            | .error er => (.err er, [.removeFlag ss.index])
            | .ok _ => (.ok (), [.removeFlag ss.index])
          else
            match prm.removeFinalRes ss.index with
            | .error er => (.err er, [.removeFinalDir ss.index])
            | .ok _ => (.ok (), [.removeFinalDir ss.index])
  else if isZombieDir e.name then
    match prm.removeAllRes e.name with
    | .error er => (.err er, [.removeAll e.name])
    | .ok _ =>
      match prm.syncRes with
      | .error er => (.err er, [.removeAll e.name, .syncDir])
      | .ok _ => (.ok (), [.removeAll e.name, .syncDir])
  else (.ok (), [])

/-- `snapshotter.ProcessOrphans`: process every entry of the replica's
snapshot root in order, stopping at the first error. -/
def ProcessOrphans (prm : OrphanPrims) : List Entry → Outcome Unit × List Ev
  | [] => (.ok (), [])
  | e :: es =>
    match processEntry prm e with
    | (.ok _, t) =>
      let r := ProcessOrphans prm es
      (r.1, t ++ r.2)
    | (r, t) => (r, t)

/-- Whether the orphan reconciliation deletes the orphan directory: the log
database lists no snapshot at all, or its most recent snapshot's index
differs from the index recorded in the flag file. -/
def deleteCond (l : List Snapshot) (ss : Snapshot) : Bool :=
  match l.getLast? with
  | none => true
  | some m => !(m.index == ss.index)

theorem genDirMatch_not_snapshot (s : String) (h : genDirMatch s = true) :
    dirNameMatch s = false := by
  simp only [genDirMatch, Bool.and_eq_true, beq_iff_eq] at h
  obtain ⟨⟨⟨⟨h11, _⟩, _⟩, _⟩, _⟩ := h
  have h9 : s.toList.take 9 = "generating-".toList.take 9 := by
    have ht : (s.toList.take 11).take 9 = s.toList.take 9 := by
      rw [List.take_take]
      norm_num
    rw [← ht, h11]
  have hne : (s.toList.take 9 == "snapshot-".toList) = false := by
    rw [h9]
    decide
  unfold dirNameMatch
  rw [hne]
  simp

theorem recvDirMatch_not_snapshot (s : String) (h : recvDirMatch s = true) :
    dirNameMatch s = false := by
  simp only [recvDirMatch, Bool.and_eq_true, beq_iff_eq] at h
  obtain ⟨⟨⟨⟨h10, _⟩, _⟩, _⟩, _⟩ := h
  have h9 : s.toList.take 9 = "receiving-".toList.take 9 := by
    have ht : (s.toList.take 10).take 9 = s.toList.take 9 := by
      rw [List.take_take]
      norm_num
    rw [← ht, h10]
  have hne : (s.toList.take 9 == "snapshot-".toList) = false := by
    rw [h9]
    decide
  unfold dirNameMatch
  rw [hne]
  simp

theorem zombie_not_snapshot (s : String) (h : isZombieDir s = true) :
    dirNameMatch s = false := by
  have h2 : genDirMatch s = true ∨ recvDirMatch s = true := by
    simpa [isZombieDir] using h
  rcases h2 with hg | hr
  · exact genDirMatch_not_snapshot s hg
  · exact recvDirMatch_not_snapshot s hr

theorem processOrphans_singleton_trace (prm : OrphanPrims) (e : Entry) :
    (ProcessOrphans prm [e]).2 = (processEntry prm e).2 := by
  unfold ProcessOrphans
  cases hpe : processEntry prm e with
  | mk r t =>
    cases r <;> simp [ProcessOrphans]

/-- C5: for a directory whose name matches the final snapshot regex and
whose flag file is present, with flag content `ss` and a healthy log database
listing `l`, orphan processing removes the final directory exactly when the
log database has no snapshot or the most recent snapshot's index differs
from the flag file's index, and otherwise removes only the flag file. -/
theorem orphan_dir_deleted_iff (prm : OrphanPrims) (e : Entry) (ss : Snapshot)
    (l : List Snapshot)
    (hdir : e.isDir = true) (hname : dirNameMatch e.name = true)
    (hflag : e.hasFlag = true) (hcontent : e.flagRes = .ok ss)
    (hne : IsEmptySnapshot ss = false) (hmr : prm.mrRes = .ok l) :
    (Ev.removeFinalDir ss.index ∈ (ProcessOrphans prm [e]).2 ↔
        deleteCond l ss = true) ∧
      (deleteCond l ss = true →
        (ProcessOrphans prm [e]).2 = [Ev.removeFinalDir ss.index]) ∧
      (deleteCond l ss = false →
        (ProcessOrphans prm [e]).2 = [Ev.removeFlag ss.index]) := by
  have horph : isOrphanDir e = true := by simp [isOrphanDir, hname, hflag]
  have hsingle := processOrphans_singleton_trace prm e
  cases hl : l.getLast? with
  | none =>
    have hdc : deleteCond l ss = true := by simp [deleteCond, hl]
    have hpe : (processEntry prm e).2 = [Ev.removeFinalDir ss.index] := by
      unfold processEntry
      cases hrf : prm.removeFinalRes ss.index <;>
        simp [hdir, horph, hcontent, hne, GetMostRecentSnapshot, hmr, hl, hrf]
    rw [hsingle, hpe]
    refine ⟨⟨fun _ => hdc, fun _ => ?_⟩, fun _ => rfl, fun hdf => ?_⟩
    · simp
    · rw [hdc] at hdf
      cases hdf
  | some m =>
    cases hmi : m.index == ss.index with
    | true =>
      have hdc : deleteCond l ss = false := by simp [deleteCond, hl, hmi]
      have hpe : (processEntry prm e).2 = [Ev.removeFlag ss.index] := by
        unfold processEntry
        cases hrf : prm.removeFlagRes ss.index <;>
          simp [hdir, horph, hcontent, hne, GetMostRecentSnapshot, hmr, hl, hmi,
            hrf]
      rw [hsingle, hpe]
      refine ⟨⟨fun hmem => ?_, fun hdt => ?_⟩, fun hdt => ?_, fun _ => rfl⟩
      · simp at hmem
      · rw [hdc] at hdt
        cases hdt
      · rw [hdc] at hdt
        cases hdt
    | false =>
      have hdc : deleteCond l ss = true := by simp [deleteCond, hl, hmi]
      have hpe : (processEntry prm e).2 = [Ev.removeFinalDir ss.index] := by
        unfold processEntry
        cases hrf : prm.removeFinalRes ss.index <;>
          simp [hdir, horph, hcontent, hne, GetMostRecentSnapshot, hmr, hl, hmi,
            hrf]
      rw [hsingle, hpe]
      refine ⟨⟨fun _ => hdc, fun _ => ?_⟩, fun _ => rfl, fun hdf => ?_⟩
      · simp
      · rw [hdc] at hdf
        cases hdf

/-- Witness for C5 at a concrete input: an orphan directory whose flag file
records index 200 while the log database's most recent snapshot has index 5
is removed; the removal condition holds and the trace is exactly the
final-directory removal. -/
theorem orphan_dir_deleted_iff_witness :
    ({ name := "snapshot-00000000000000c8", hasFlag := true,
        flagRes := .ok { index := 200 } : Entry }).isDir = true ∧
      dirNameMatch "snapshot-00000000000000c8" = true ∧
      IsEmptySnapshot { index := 200 } = false ∧
      ((Ev.removeFinalDir (({ index := 200 } : Snapshot)).index ∈
          (ProcessOrphans { mrRes := .ok [{ index := 5 }] }
            [{ name := "snapshot-00000000000000c8", hasFlag := true,
                flagRes := .ok { index := 200 } }]).2 ↔
          deleteCond [{ index := 5 }] { index := 200 } = true) ∧
        (deleteCond [{ index := 5 }] { index := 200 } = true →
          (ProcessOrphans { mrRes := .ok [{ index := 5 }] }
            [{ name := "snapshot-00000000000000c8", hasFlag := true,
                flagRes := .ok { index := 200 } }]).2 =
            [Ev.removeFinalDir (({ index := 200 } : Snapshot)).index]) ∧
        (deleteCond [{ index := 5 }] { index := 200 } = false →
          (ProcessOrphans { mrRes := .ok [{ index := 5 }] }
            [{ name := "snapshot-00000000000000c8", hasFlag := true,
                flagRes := .ok { index := 200 } }]).2 =
            [Ev.removeFlag (({ index := 200 } : Snapshot)).index])) :=
  ⟨rfl, by decide, by decide,
    orphan_dir_deleted_iff { mrRes := .ok [{ index := 5 }] }
      { name := "snapshot-00000000000000c8", hasFlag := true,
        flagRes := .ok { index := 200 } }
      { index := 200 } [{ index := 5 }] rfl (by decide) rfl rfl (by decide) rfl⟩

/-- C6: a subdirectory whose name matches the generating or receiving regex
is recursively removed and the parent directory synced, while a subdirectory
matching neither the snapshot nor the zombie regexes is left untouched. -/
theorem zombie_dirs_removed (prm : OrphanPrims) (e e2 : Entry)
    (hdir : e.isDir = true) (hz : (genDirMatch e.name || recvDirMatch e.name) = true)
    (hra : prm.removeAllRes e.name = .ok ()) (hsy : prm.syncRes = .ok ())
    (hdir2 : e2.isDir = true) (hn1 : dirNameMatch e2.name = false)
    (hg2 : genDirMatch e2.name = false) (hr2 : recvDirMatch e2.name = false) :
    ProcessOrphans prm [e] = (.ok (), [Ev.removeAll e.name, Ev.syncDir]) ∧
      ProcessOrphans prm [e2] = (.ok (), []) := by
  constructor
  · have hzz : isZombieDir e.name = true := by simpa [isZombieDir] using hz
    have hno : isOrphanDir e = false := by
      simp [isOrphanDir, zombie_not_snapshot e.name hzz]
    have hpe : processEntry prm e = (.ok (), [Ev.removeAll e.name, Ev.syncDir]) := by
      unfold processEntry
      simp [hdir, hno, hzz, hra, hsy]
    unfold ProcessOrphans
    rw [hpe]
    simp [ProcessOrphans]
  · have hpe : processEntry prm e2 = (.ok (), []) := by
      unfold processEntry
      simp [hdir2, isOrphanDir, isZombieDir, hn1, hg2, hr2]
    unfold ProcessOrphans
    rw [hpe]
    simp [ProcessOrphans]

/-- Witness for C6 at a concrete input: a generating-named directory is
recursively removed with a parent sync, and a directory matching no regex is
untouched. -/
theorem zombie_dirs_removed_witness :
    (genDirMatch "generating-0000000000000064-abcd" ||
        recvDirMatch "generating-0000000000000064-abcd") = true ∧
      dirNameMatch "mydata-1" = false ∧
      genDirMatch "mydata-1" = false ∧
      recvDirMatch "mydata-1" = false ∧
      (ProcessOrphans {} [{ name := "generating-0000000000000064-abcd" }] =
          (.ok (),
            [Ev.removeAll "generating-0000000000000064-abcd", Ev.syncDir]) ∧
        ProcessOrphans {} [{ name := "mydata-1" }] = (.ok (), [])) :=
  ⟨by decide, by decide, by decide, by decide,
    zombie_dirs_removed {} { name := "generating-0000000000000064-abcd" }
      { name := "mydata-1" } rfl (by decide) rfl rfl rfl (by decide) (by decide)
      (by decide)⟩

theorem compressionType_unknown (ct : Nat) (h0 : ¬ct = NoCompression)
    (h1 : ¬ct = Snappy) :
    compressionType ct = .fatal "unknown compression type" := by
  simp [compressionType, h0, h1]

/-- C9: the contract-violation conditions terminate the process with a
diagnostic instead of returning an error: an unknown compression tag in
save, load or stream; an empty snapshot record read from an orphan
directory's flag file during orphan processing; and a listed snapshot whose
index exceeds the shrink bound during shrink. -/
theorem contract_violations_panic :
    (∀ ct, ¬ct = NoCompression → ¬ct = Snappy →
      compressionType ct = .fatal "unknown compression type") ∧
    (∀ ct sres cres, ¬ct = NoCompression → ¬ct = Snappy →
      (Stream ct sres cres).1 = .fatal "unknown compression type") ∧
    (∀ clusterId meta p, ¬meta.ct = NoCompression → ¬meta.ct = Snappy →
      getCustomSSEnv meta.req = .ok () → p.createTempRes = .ok () →
      (Save clusterId meta p).1 = .fatal "unknown compression type") ∧
    (∀ p h, p.openRes = .ok () → p.headerRes = .ok h →
      ¬h.ct = NoCompression → ¬h.ct = Snappy →
      (Load p).1 = .fatal "unknown compression type") ∧
    (∀ prm e ss, e.isDir = true → dirNameMatch e.name = true →
      e.hasFlag = true → e.flagRes = .ok ss → IsEmptySnapshot ss = true →
      (ProcessOrphans prm [e]).1 = .fatal "empty snapshot found") ∧
    (∀ p shrinkTo ss rest, shrinkTo < ss.index →
      (Shrink p shrinkTo (.ok (ss :: rest))).1 =
        .fatal "unexpected snapshot found") := by
  refine ⟨compressionType_unknown, ?_, ?_, ?_, ?_, ?_⟩
  · intro ct sres cres h0 h1
    unfold Stream
    simp [compressionType_unknown ct h0 h1]
  · intro clusterId meta p h0 h1 henv hct
    unfold Save
    simp [henv, hct, compressionType_unknown meta.ct h0 h1]
  · intro p h hopen hhdr h0 h1
    unfold Load
    simp [hopen, hhdr, compressionType_unknown h.ct h0 h1]
  · intro prm e ss hdir hname hflag hcontent hempty
    have horph : isOrphanDir e = true := by simp [isOrphanDir, hname, hflag]
    have hpe : processEntry prm e = (.fatal "empty snapshot found", []) := by
      unfold processEntry
      simp [hdir, horph, hcontent, hempty]
    unfold ProcessOrphans
    rw [hpe]
  · intro p shrinkTo ss rest hgt
    show (shrinkLoop p shrinkTo (ss :: rest)).1 = _
    unfold shrinkLoop
    simp [hgt]

/-- Witness for C9 at concrete inputs: compression tag 2 panics in
compressionType, stream, save and load; an orphan flag file recording the
empty snapshot panics during orphan processing; and a listed snapshot of
index 11 panics during shrink to 10. -/
theorem contract_violations_panic_witness :
    ¬(2 : Nat) = NoCompression ∧ ¬(2 : Nat) = Snappy ∧
      compressionType 2 = .fatal "unknown compression type" ∧
      (Stream 2 (.ok ()) (.ok ())).1 = .fatal "unknown compression type" ∧
      (Save 1 { ct := 2 } {}).1 = .fatal "unknown compression type" ∧
      (Load { headerRes := .ok { ct := 2 } }).1 =
        .fatal "unknown compression type" ∧
      (ProcessOrphans {}
        [{ name := "snapshot-00000000000000c8", hasFlag := true,
            flagRes := .ok {} }]).1 = .fatal "empty snapshot found" ∧
      (Shrink {} 10 (.ok [{ index := 11 }])).1 =
        .fatal "unexpected snapshot found" :=
  ⟨by decide, by decide,
    contract_violations_panic.1 2 (by decide) (by decide),
    contract_violations_panic.2.1 2 (.ok ()) (.ok ()) (by decide) (by decide),
    contract_violations_panic.2.2.1 1 { ct := 2 } {} (by decide) (by decide)
      rfl rfl,
    contract_violations_panic.2.2.2.1 { headerRes := .ok { ct := 2 } }
      { ct := 2 } rfl rfl (by decide) (by decide),
    contract_violations_panic.2.2.2.2.1 {}
      { name := "snapshot-00000000000000c8", hasFlag := true, flagRes := .ok {} }
      {} rfl (by decide) rfl rfl (by decide),
    contract_violations_panic.2.2.2.2.2 {} 10 { index := 11 } [] (by decide)⟩

end Snap
